import Mathlib

/-!
Shallow embedding of the Goody third-party gift fulfillment dashboard core
(order status state machine, backfill synthesizer, report aggregator).

JavaScript numbers are modelled as exact rationals (ℚ); timestamps are
milliseconds since the epoch, as in `Date.getTime()`.  `Math.round x` is
`⌊x + 1/2⌋` (JS rounds half toward +∞), `Math.floor` is `⌊·⌋` and
`Math.ceil` is `⌈·⌉`.  `Math.random()` draws are injected explicitly as ℚ
parameters constrained to `[0,1)` where a theorem needs that range.
-/

namespace Goody

/-- JS `Math.round`: round half toward positive infinity. -/
def jsRound (q : ℚ) : ℤ := ⌊q + 1/2⌋

/-- Order status enum from `packages/shared/src/types/order.ts`. -/
inductive OrderStatus
  | PLACED
  | SHIPPING_ON_TIME
  | SHIPPING_DELAYED
  | ARRIVED
  | LOST
  | DAMAGED
  | UNDELIVERABLE
  | RETURN_TO_SENDER
deriving DecidableEq, Repr, Fintype

/-- Gift type enum from `packages/shared/src/types/order.ts`. -/
inductive GiftType
  | flowers
  | tech
  | food
  | apparel
deriving DecidableEq, Repr

/-- Trend direction enum from `packages/shared/src/types/report.ts`. -/
inductive TrendDirection
  | up
  | down
  | stable
deriving DecidableEq, Repr

/-- `isTerminalStatus` from `order.ts`: membership in the terminal list. -/
def isTerminalStatus (s : OrderStatus) : Bool :=
  [OrderStatus.ARRIVED, OrderStatus.LOST, OrderStatus.DAMAGED,
    OrderStatus.UNDELIVERABLE, OrderStatus.RETURN_TO_SENDER].contains s

/-- The allowed-transition table inside `canTransitionTo` in `order.ts`. -/
def transitions (s : OrderStatus) : List OrderStatus :=
  match s with
  | .PLACED => [.SHIPPING_ON_TIME, .SHIPPING_DELAYED, .LOST]
  | .SHIPPING_ON_TIME => [.ARRIVED, .SHIPPING_DELAYED, .LOST, .DAMAGED]
  | .SHIPPING_DELAYED => [.ARRIVED, .LOST, .DAMAGED, .UNDELIVERABLE, .RETURN_TO_SENDER]
  | .ARRIVED => []
  | .LOST => []
  | .DAMAGED => []
  | .UNDELIVERABLE => []
  | .RETURN_TO_SENDER => []

/-- `canTransitionTo` from `order.ts`. -/
def canTransitionTo (f t : OrderStatus) : Bool := (transitions f).contains t

/-- `calculateIsDelayed` from `order.ts`: false when either timestamp is
absent, otherwise `updatedAt > estimatedDelivery` (strict). -/
def calculateIsDelayed (estimatedDelivery updatedAt : Option ℚ) : Bool :=
  match estimatedDelivery, updatedAt with
  | some e, some u => decide (e < u)
  | _, _ => false

/-- `StatusCounts` record from `report.ts`. -/
structure StatusCounts where
  PLACED : ℕ
  SHIPPING_ON_TIME : ℕ
  SHIPPING_DELAYED : ℕ
  ARRIVED : ℕ
  LOST : ℕ
  DAMAGED : ℕ
  UNDELIVERABLE : ℕ
  RETURN_TO_SENDER : ℕ
deriving DecidableEq, Repr

/-- The all-zero status-count map (`calculateStatusCounts` initial value). -/
def StatusCounts.zero : StatusCounts :=
  ⟨0, 0, 0, 0, 0, 0, 0, 0⟩

/-- `counts[order.status] += 1` in `calculateStatusCounts`. -/
def StatusCounts.increment (sc : StatusCounts) (s : OrderStatus) : StatusCounts :=
  match s with
  | .PLACED => { sc with PLACED := sc.PLACED + 1 }
  | .SHIPPING_ON_TIME => { sc with SHIPPING_ON_TIME := sc.SHIPPING_ON_TIME + 1 }
  | .SHIPPING_DELAYED => { sc with SHIPPING_DELAYED := sc.SHIPPING_DELAYED + 1 }
  | .ARRIVED => { sc with ARRIVED := sc.ARRIVED + 1 }
  | .LOST => { sc with LOST := sc.LOST + 1 }
  | .DAMAGED => { sc with DAMAGED := sc.DAMAGED + 1 }
  | .UNDELIVERABLE => { sc with UNDELIVERABLE := sc.UNDELIVERABLE + 1 }
  | .RETURN_TO_SENDER => { sc with RETURN_TO_SENDER := sc.RETURN_TO_SENDER + 1 }

/-- The `totalCompleted` denominator inside `calculateReliabilityScore`. -/
def completedTotal (sc : StatusCounts) : ℕ :=
  sc.ARRIVED + sc.LOST + sc.DAMAGED + sc.UNDELIVERABLE + sc.RETURN_TO_SENDER

/-- `calculateReliabilityScore` from `report.ts`. -/
def calculateReliabilityScore (sc : StatusCounts) : ℤ :=
  if completedTotal sc = 0 then 0
  else jsRound ((sc.ARRIVED : ℚ) / (completedTotal sc : ℚ) * 100)

/-- `calculateOnTimePercentage` from `report.ts`. -/
def calculateOnTimePercentage (onTimeDeliveries totalDelivered : ℕ) : ℤ :=
  if totalDelivered = 0 then 0
  else jsRound ((onTimeDeliveries : ℚ) / (totalDelivered : ℚ) * 100)

/-- `calculateIssueCount` from `report.ts`. -/
def calculateIssueCount (sc : StatusCounts) : ℕ :=
  sc.LOST + sc.DAMAGED + sc.UNDELIVERABLE + sc.RETURN_TO_SENDER

/-- `calculateTrendDirection` from `report.ts` with its default threshold
`0.05`.  JS computes `change = |current - previous| / previous` and tests
`change < threshold`; when `previous = 0` that quotient is `NaN` (both are
`0`) or `+Infinity`, and the comparison is false in both cases, so the
`stable` branch is only reachable when `previous ≠ 0`. -/
def calculateTrendDirection (current previous : ℚ) : TrendDirection :=
  if previous ≠ 0 ∧ |current - previous| / previous < 1/20 then .stable
  else if previous < current then .up
  else .down

/-- `calculatePercentageChange` from `report.ts`. -/
def calculatePercentageChange (current previous : ℚ) : ℚ :=
  if previous = 0 then (if 0 < current then 100 else 0)
  else (current - previous) / previous * 100

/-- `Order` record from `order.ts`; timestamps are epoch milliseconds in ℚ,
optional fields are `Option`.  The `orderId` string (a timestamp-plus-random
suffix used only as a storage key, read by no metric) is carried opaquely. -/
structure Order where
  orderId : String
  vendorId : String
  status : OrderStatus
  createdAt : ℚ
  updatedAt : ℚ
  estimatedDelivery : Option ℚ
  actualDelivery : Option ℚ
  giftValue : ℤ
  giftType : GiftType
  isRush : Bool
  isDelayed : Bool
  deliveryDays : Option ℤ
  isBackfilled : Bool
deriving DecidableEq, Repr

/-- The fields of the `Vendor` record (`vendor.ts`) consumed by the backfill
synthesizer and the report generator: `createVendorFromBackfillConfig`
copies `vendorId`, `name`, `category` and `baseReliability` from the config
(the remaining fields — avgOrderValue, isActive, metadata — are read by no
function under verification). -/
structure Vendor where
  vendorId : String
  name : String
  category : GiftType
  baseReliability : ℚ
deriving DecidableEq, Repr

/-- `BackfillVendorConfig` from `vendor.ts` (fields used by the core). -/
structure BackfillVendorConfig where
  vendorId : String
  name : String
  category : GiftType
  baseReliability : ℚ
  commonIssues : List OrderStatus
deriving DecidableEq, Repr

/-- `BACKFILL_VENDORS` from `vendor.ts`. -/
def BACKFILL_VENDORS : List BackfillVendorConfig :=
  [ { vendorId := "vendor-001", name := "Premium Flowers", category := .flowers,
      baseReliability := 95/100, commonIssues := [.DAMAGED] },
    { vendorId := "vendor-002", name := "Gourmet Baskets", category := .food,
      baseReliability := 92/100, commonIssues := [.DAMAGED, .UNDELIVERABLE] },
    { vendorId := "vendor-003", name := "Tech Gadgets Co", category := .tech,
      baseReliability := 87/100, commonIssues := [.LOST, .DAMAGED] },
    { vendorId := "vendor-004", name := "Artisan Goods", category := .apparel,
      baseReliability := 83/100, commonIssues := [.UNDELIVERABLE, .RETURN_TO_SENDER] },
    { vendorId := "vendor-005", name := "Fast Fashion", category := .apparel,
      baseReliability := 72/100, commonIssues := [.LOST, .DAMAGED, .RETURN_TO_SENDER] } ]

/-- `createVendorFromBackfillConfig` from `vendor.ts`, restricted to the
fields the core reads (the dropped fields are derived constants and
metadata strings). -/
def createVendorFromBackfillConfig (config : BackfillVendorConfig) : Vendor :=
  { vendorId := config.vendorId, name := config.name,
    category := config.category, baseReliability := config.baseReliability }

/-- `ACTIVE_VENDORS` from `data-backfill.ts`. -/
def ACTIVE_VENDORS : List Vendor :=
  BACKFILL_VENDORS.map createVendorFromBackfillConfig

/-- Milliseconds per day (`24 * 60 * 60 * 1000`). -/
def msPerDay : ℚ := 86400000

/-- `vendor.baseReliability || 0.8` — JS `||` substitutes `0.8` when the
stored reliability is falsy (i.e. `0`). -/
def reliabilityOrDefault (r : ℚ) : ℚ := if r = 0 then 8/10 else r

/-- `calculateDailyOrderCount` from `data-backfill.ts`:
`baseCount = ⌊r * (200 - 50 + 1) + 50⌋` for the configured daily range
`[50, 200]`, then `⌊baseCount * 0.6⌋` on weekends (`dayOfWeek` 0 or 6) and
`⌊baseCount * 1.5⌋` on weekdays.  `r` is the injected `Math.random()` draw. -/
def calculateDailyOrderCount (dayOfWeek : ℕ) (r : ℚ) : ℤ :=
  let isWeekend : Bool := dayOfWeek == 0 || dayOfWeek == 6
  let baseCount : ℤ := ⌊r * (200 - 50 + 1) + 50⌋
  let multiplier : ℚ := if isWeekend then 6/10 else 15/10
  ⌊(baseCount : ℚ) * multiplier⌋

/-- Weight of one vendor in `selectWeightedVendor`:
`Math.ceil((vendor.baseReliability || 0.8) * 10)` (clamped to ℕ because the
JS loop `for i in 0..weight` pushes no copy for a non-positive weight). -/
def vendorWeight (v : Vendor) : ℕ :=
  (⌈reliabilityOrDefault v.baseReliability * 10⌉).toNat

/-- The `weightedVendors` table built by `selectWeightedVendor`: each vendor
in catalog order, repeated `vendorWeight` times. -/
def weightedVendors (vendors : List Vendor) : List Vendor :=
  (vendors.map (fun v => List.replicate (vendorWeight v) v)).flatten

/-- `selectWeightedVendor` from `data-backfill.ts`: uniform random index
`⌊r * length⌋` into the weighted table. -/
def selectWeightedVendor (vendors : List Vendor) (r : ℚ) : Option Vendor :=
  (weightedVendors vendors).get? (⌊r * ((weightedVendors vendors).length : ℚ)⌋).toNat

/-- `selectGiftType` from `data-backfill.ts`: walks the configured
distribution `flowers 0.25, tech 0.30, food 0.30, apparel 0.15` in entry
order, returning the first category whose cumulative probability bound is
reached (`random <= cumulative`), with `tech` as the fallback. -/
def selectGiftType (r : ℚ) : GiftType :=
  if r ≤ 25/100 then .flowers
  else if r ≤ 55/100 then .tech
  else if r ≤ 85/100 then .food
  else if r ≤ 1 then .apparel
  else .tech

/-- `GIFT_VALUE_RANGES` from `data-backfill.ts` (min, max in cents). -/
def GIFT_VALUE_RANGES (g : GiftType) : ℤ × ℤ :=
  match g with
  | .flowers => (2500, 15000)
  | .tech => (5000, 50000)
  | .food => (1500, 8000)
  | .apparel => (3000, 25000)

/-- The injected `Math.random()` draws consumed by
`generateOrderProgression`, one field per call site. -/
structure ProgressionDraws where
  statusDraw : ℚ
  daysDraw : ℚ
  varianceDraw : ℚ
  useCommonDraw : ℚ
  commonIndexDraw : ℚ
  randomIndexDraw : ℚ
  issueTimeDraw : ℚ
deriving DecidableEq, Repr

/-- The record returned by `generateOrderProgression`. -/
structure Progression where
  status : OrderStatus
  estimatedDelivery : ℚ
  actualDelivery : Option ℚ
  isDelayed : Bool
  deliveryDays : Option ℤ
deriving DecidableEq, Repr

/-- `generateOrderProgression` from `data-backfill.ts`.  With probability
`reliability * 0.9` the order is `ARRIVED` with actual delivery jittered
`±1` day around the estimate and `isDelayed = (actual > estimate)`;
otherwise an issue status is drawn (from the vendor's `commonIssues` 70% of
the time when that list is non-empty, else uniformly from the four issue
statuses), the occurrence time is `estimate + draw * 3` days, and
`isDelayed` is hard-coded `true`.  The common-issue list is looked up in
`BACKFILL_VENDORS` by vendor id exactly as the source does. -/
def generateOrderProgression (vendor : Vendor) (createdAt : ℚ) (isRush : Bool)
    (d : ProgressionDraws) : Progression :=
  let reliability := reliabilityOrDefault vendor.baseReliability
  let deliveryDays : ℤ := if isRush then 1 else ⌊d.daysDraw * 3⌋ + 2
  let estimatedDelivery := createdAt + (deliveryDays : ℚ) * msPerDay
  let commonIssues :=
    ((BACKFILL_VENDORS.find? (fun c => c.vendorId == vendor.vendorId)).map
      (fun c => c.commonIssues)).getD []
  if d.statusDraw < reliability * (9/10) then
    let actualDeliveryTime :=
      createdAt + ((deliveryDays : ℚ) + (d.varianceDraw - 1/2) * 2) * msPerDay
    let isDelayed := decide (estimatedDelivery < actualDeliveryTime)
    let actualDeliveryDays := ⌈(actualDeliveryTime - createdAt) / msPerDay⌉
    { status := .ARRIVED, estimatedDelivery := estimatedDelivery,
      actualDelivery := some actualDeliveryTime, isDelayed := isDelayed,
      deliveryDays := some actualDeliveryDays }
  else
    let issueStatus :=
      if 0 < commonIssues.length ∧ d.useCommonDraw < 7/10 then
        commonIssues.getD (⌊d.commonIndexDraw * (commonIssues.length : ℚ)⌋).toNat .LOST
      else
        [OrderStatus.LOST, .DAMAGED, .UNDELIVERABLE, .RETURN_TO_SENDER].getD
          (⌊d.randomIndexDraw * 4⌋).toNat .LOST
    let issueTime := createdAt + ((deliveryDays : ℚ) + d.issueTimeDraw * 3) * msPerDay
    let issueDays := ⌈(issueTime - createdAt) / msPerDay⌉
    { status := issueStatus, estimatedDelivery := estimatedDelivery,
      actualDelivery := some issueTime, isDelayed := true,
      deliveryDays := some issueDays }

/-- The injected `Math.random()` draws consumed by `createBackfilledOrder`
outside of the progression. -/
structure OrderDraws where
  hourDraw : ℚ
  minuteDraw : ℚ
  secondDraw : ℚ
  rushDraw : ℚ
  giftValueDraw : ℚ
  prog : ProgressionDraws
deriving DecidableEq, Repr

/-- `createBackfilledOrder` from `data-backfill.ts`.  `baseDate` is the
start-of-day timestamp; the creation time adds a random hour in `[6, 22)`,
minute and second.  The gift category is `vendor.category!` — taken
directly from the selected vendor's catalog entry (`selectGiftType` is not
called here).  `updatedAt` is the progression's actual-delivery time when
present, else the creation time.  The `orderId` string formatting is
carried opaquely. -/
def createBackfilledOrder (baseDate : ℚ) (vendor : Vendor) (d : OrderDraws) : Order :=
  let createdAt := baseDate
    + ((⌊d.hourDraw * 16⌋ + 6 : ℤ) : ℚ) * 3600000
    + ((⌊d.minuteDraw * 60⌋ : ℤ) : ℚ) * 60000
    + ((⌊d.secondDraw * 60⌋ : ℤ) : ℚ) * 1000
  let giftType := vendor.category
  let isRush := decide (d.rushDraw < 15/100)
  let valueRange := GIFT_VALUE_RANGES giftType
  let giftValue := ⌊d.giftValueDraw * ((valueRange.2 - valueRange.1 + 1 : ℤ) : ℚ)⌋
    + valueRange.1
  let progression := generateOrderProgression vendor createdAt isRush d.prog
  { orderId := "ORD", vendorId := vendor.vendorId, status := progression.status,
    createdAt := createdAt,
    updatedAt := progression.actualDelivery.getD createdAt,
    estimatedDelivery := some progression.estimatedDelivery,
    actualDelivery := progression.actualDelivery,
    giftValue := giftValue, giftType := giftType, isRush := isRush,
    isDelayed := progression.isDelayed,
    deliveryDays := progression.deliveryDays, isBackfilled := true }

/-- `calculateStatusCounts` from `report-generator.ts`: fold the orders,
incrementing the bucket of each order's status. -/
def calculateStatusCounts (orders : List Order) : StatusCounts :=
  orders.foldl (fun sc o => sc.increment o.status) StatusCounts.zero

/-- `calculateOnTimeDeliveries` from `report-generator.ts`: count orders
that are `ARRIVED`, carry both timestamps, and have
`actualDelivery <= estimatedDelivery`. -/
def calculateOnTimeDeliveries (orders : List Order) : ℕ :=
  (orders.filter (fun o =>
    o.status == .ARRIVED &&
    match o.actualDelivery, o.estimatedDelivery with
    | some a, some e => decide (a ≤ e)
    | _, _ => false)).length

/-- The on-time percentage stored in a `VendorReport` window by
`generateVendorReport`:
`calculateOnTimePercentage(calculateOnTimeDeliveries(orders), orders.length)`
— the denominator passed by the caller is the window's total order count. -/
def vendorOnTimePercentage (orders : List Order) : ℤ :=
  calculateOnTimePercentage (calculateOnTimeDeliveries orders) orders.length

/-- The `vendorReliabilities` array built by `generateDashboardSummary`:
for each catalog vendor, if it has at least one order in the window, the
reliability score of its orders' status counts. -/
def vendorReliabilities (vendors : List Vendor) (orders : List Order) : List ℤ :=
  vendors.filterMap (fun v =>
    let vendorOrders := orders.filter (fun o => o.vendorId == v.vendorId)
    if 0 < vendorOrders.length then
      some (calculateReliabilityScore (calculateStatusCounts vendorOrders))
    else none)

/-- `currentOverallReliability` in `generateDashboardSummary`: mean of the
`vendorReliabilities` entries, `0` when that array is empty. -/
def overallReliability (vendors : List Vendor) (orders : List Order) : ℚ :=
  let rs := vendorReliabilities vendors orders
  if 0 < rs.length then ((rs.sum : ℚ)) / (rs.length : ℚ) else 0

/-- The `overallReliability` value stored in the `DashboardSummary` record:
`Math.round(x * 100) / 100` (two decimal places). -/
def storedOverallReliability (vendors : List Vendor) (orders : List Order) : ℚ :=
  (jsRound (overallReliability vendors orders * 100) : ℚ) / 100

/-- The `reliabilityTrend` value stored in the `DashboardSummary` trends
block: `Math.round(calculatePercentageChange(cur, prev) * 100) / 100`. -/
def dashboardReliabilityTrend (vendors : List Vendor)
    (curOrders prevOrders : List Order) : ℚ :=
  (jsRound (calculatePercentageChange (overallReliability vendors curOrders)
    (overallReliability vendors prevOrders) * 100) : ℚ) / 100

/-- The catalog vendors with at least one order in the window, written the
way the specification describes the dashboard mean's index set. -/
def qualifyingVendors (vendors : List Vendor) (orders : List Order) : List Vendor :=
  vendors.filter (fun v => decide (0 < (orders.filter (fun o => o.vendorId == v.vendorId)).length))

/-- The specification's description of the dashboard reliability: the
unweighted arithmetic mean of per-vendor reliability scores over exactly
the catalog vendors with at least one order in the window, `0` when there
is no such vendor. -/
def specOverallReliability (vendors : List Vendor) (orders : List Order) : ℚ :=
  let qs := qualifyingVendors vendors orders
  if qs = [] then 0
  else (((qs.map (fun v => calculateReliabilityScore
    (calculateStatusCounts (orders.filter (fun o => o.vendorId == v.vendorId))))).sum : ℚ))
    / (qs.length : ℚ)

/-- The injected draws consumed by one `advance` step of the live order
state machine. -/
structure AdvanceDraws where
  coinDraw : ℚ
  completeDraw : ℚ
  lostDraw : ℚ
  issuePathDraw : ℚ
  useCommonDraw : ℚ
  issueIndexDraw : ℚ
deriving DecidableEq, Repr

/-- Modelled from the spec: the Live Order Driver's probabilistic
`advance(order, vendor, now) -> nextStatus` step (spec section 4.1) is not
present under `src/` (only the transition table and terminal predicate
are), so its policy is modelled from the spec's words.  The probability
constants are the spec's tunable parameters, passed in as `pComplete`
(completion chance from `SHIPPING_ON_TIME`), `pLost` / `pLateComplete` /
`pIssue` (the `SHIPPING_DELAYED` branch chances).  From `PLACED`: overdue
or a failed reliability-weighted coin flip gives `SHIPPING_DELAYED`, else
`SHIPPING_ON_TIME`.  From `SHIPPING_ON_TIME`: the same test may relapse to
`SHIPPING_DELAYED`, else a fixed chance completes to `ARRIVED`, else
self-loop.  From `SHIPPING_DELAYED`: a small chance of `LOST`, else a
chance of late `ARRIVED`, else a lower-weight issue resolution drawn from
the vendor's common-issue set 70% of the time (when non-empty) versus
uniformly over the terminal-issue states, else self-loop.  Terminal states
have no outgoing transitions, so the status is returned unchanged. -/
def advance (s : OrderStatus) (overdue : Bool) (reliability : ℚ)
    (commonIssues : List OrderStatus)
    (pComplete pLost pLateComplete pIssue : ℚ) (d : AdvanceDraws) : OrderStatus :=
  match s with
  | .PLACED =>
      if overdue || decide (reliability ≤ d.coinDraw) then .SHIPPING_DELAYED
      else .SHIPPING_ON_TIME
  | .SHIPPING_ON_TIME =>
      if overdue || decide (reliability ≤ d.coinDraw) then .SHIPPING_DELAYED
      else if d.completeDraw < pComplete then .ARRIVED
      else .SHIPPING_ON_TIME
  | .SHIPPING_DELAYED =>
      if d.lostDraw < pLost then .LOST
      else if d.completeDraw < pLateComplete then .ARRIVED
      else if d.issuePathDraw < pIssue then
        (if 0 < commonIssues.length ∧ d.useCommonDraw < 7/10 then
          commonIssues.getD (⌊d.issueIndexDraw * (commonIssues.length : ℚ)⌋).toNat .LOST
        else
          [OrderStatus.DAMAGED, .UNDELIVERABLE, .RETURN_TO_SENDER].getD
            (⌊d.issueIndexDraw * 3⌋).toNat .DAMAGED)
      else .SHIPPING_DELAYED
  | s => s

/-- Concrete catalog vendors used as inputs in witnesses and
counterexamples. -/
def vendorPremiumFlowers : Vendor :=
  { vendorId := "vendor-001", name := "Premium Flowers", category := .flowers,
    baseReliability := 95/100 }

def vendorTechGadgets : Vendor :=
  { vendorId := "vendor-003", name := "Tech Gadgets Co", category := .tech,
    baseReliability := 87/100 }

/-- A concrete 7-day-window order that arrived on time (actual delivery at
or before the estimate). -/
def c2OnTimeOrder : Order :=
  { orderId := "ORD", vendorId := "vendor-001", status := .ARRIVED, createdAt := 0,
    updatedAt := 86400000, estimatedDelivery := some 172800000,
    actualDelivery := some 86400000, giftValue := 5000, giftType := .flowers,
    isRush := false, isDelayed := false, deliveryDays := some 1, isBackfilled := true }

/-- A concrete window order that arrived after its estimate. -/
def c2LateOrder : Order :=
  { orderId := "ORD", vendorId := "vendor-001", status := .ARRIVED, createdAt := 0,
    updatedAt := 259200000, estimatedDelivery := some 172800000,
    actualDelivery := some 259200000, giftValue := 5000, giftType := .flowers,
    isRush := false, isDelayed := true, deliveryDays := some 3, isBackfilled := true }

/-- A concrete window order that was lost. -/
def c2LostOrder : Order :=
  { orderId := "ORD", vendorId := "vendor-001", status := .LOST, createdAt := 0,
    updatedAt := 432000000, estimatedDelivery := some 172800000,
    actualDelivery := none, giftValue := 5000, giftType := .flowers,
    isRush := false, isDelayed := true, deliveryDays := none, isBackfilled := true }

/-- A 100-order window: 80 on-time arrivals, 10 late arrivals, 10 lost. -/
def c2Window : List Order :=
  List.replicate 80 c2OnTimeOrder ++ List.replicate 10 c2LateOrder ++
    List.replicate 10 c2LostOrder

/-- Draws that force `generateOrderProgression` through the issue path with
an issue-time offset of exactly zero days past the estimate. -/
def issueBoundaryDraws : ProgressionDraws :=
  { statusDraw := 9/10, daysDraw := 0, varianceDraw := 1/2, useCommonDraw := 0,
    commonIndexDraw := 0, randomIndexDraw := 0, issueTimeDraw := 0 }

/-- Backfill-order draws wrapping `issueBoundaryDraws` (rush order, created
at 6 AM sharp). -/
def issueBoundaryOrderDraws : OrderDraws :=
  { hourDraw := 0, minuteDraw := 0, secondDraw := 0, rushDraw := 0,
    giftValueDraw := 0, prog := issueBoundaryDraws }

/-- Draws that force the `ARRIVED` path with a `+1` day variance, so the
actual delivery lands strictly after the estimate. -/
def arrivedLateDraws : OrderDraws :=
  { hourDraw := 0, minuteDraw := 0, secondDraw := 0, rushDraw := 1/2,
    giftValueDraw := 0,
    prog := { statusDraw := 0, daysDraw := 0, varianceDraw := 1, useCommonDraw := 0,
              commonIndexDraw := 0, randomIndexDraw := 0, issueTimeDraw := 0 } }

/-- A concrete arrived order attributed to the given vendor id. -/
def c9ArrivedOrder (vid : String) : Order :=
  { orderId := "ORD", vendorId := vid, status := .ARRIVED, createdAt := 0,
    updatedAt := 86400000, estimatedDelivery := some 172800000,
    actualDelivery := some 86400000, giftValue := 5000, giftType := .flowers,
    isRush := false, isDelayed := false, deliveryDays := some 1, isBackfilled := true }

/-- A concrete lost order attributed to the given vendor id. -/
def c9LostOrder (vid : String) : Order :=
  { orderId := "ORD", vendorId := vid, status := .LOST, createdAt := 0,
    updatedAt := 432000000, estimatedDelivery := some 172800000,
    actualDelivery := none, giftValue := 5000, giftType := .flowers,
    isRush := false, isDelayed := true, deliveryDays := none, isBackfilled := true }

/-- A window where vendors 001 and 002 score 90 and vendor 003 scores 85,
so the unweighted mean `265/3` is not representable in two decimals. -/
def c9Orders : List Order :=
  List.replicate 9 (c9ArrivedOrder "vendor-001") ++ [c9LostOrder "vendor-001"] ++
    List.replicate 9 (c9ArrivedOrder "vendor-002") ++ [c9LostOrder "vendor-002"] ++
    List.replicate 17 (c9ArrivedOrder "vendor-003") ++
    List.replicate 3 (c9LostOrder "vendor-003")

/-- One fixed draw vector, reused across two different vendors. -/
def sharedDraws : OrderDraws :=
  { hourDraw := 1/2, minuteDraw := 1/2, secondDraw := 1/2, rushDraw := 1/2,
    giftValueDraw := 1/2,
    prog := { statusDraw := 1/2, daysDraw := 1/2, varianceDraw := 1/2,
              useCommonDraw := 1/2, commonIndexDraw := 1/2, randomIndexDraw := 1/2,
              issueTimeDraw := 1/2 } }

/-! ## Theorems -/

unseal Rat.mul Rat.inv Rat.add Rat.sub in
/-- C1 (counterexample): the trend direction of `current = 0, previous = 0`
is `down`, not `stable` — in JS the quotient `0/0` is `NaN`, `NaN < 0.05`
is false, and `0 > 0` is false, so the `down` arm is taken. -/
theorem trendDirection_zero_zero_cx :
    calculateTrendDirection 0 0 = TrendDirection.down ∧
    calculateTrendDirection 0 0 ≠ TrendDirection.stable := by
  decide

unseal Rat.mul Rat.inv Rat.add Rat.sub in
/-- C1 (amended): `calculateTrendDirection` is `stable` exactly when
`previous ≠ 0` and `|current - previous| / previous < 0.05`; otherwise it
is `up` if `current > previous` and `down` if not (including when
`previous = 0` and `current = 0`, which gives `down`); in particular
`(90, 80) = up`, `(82, 80) = stable` and `(0, 0) = down`. -/
theorem trendDirection_cases (current previous : ℚ) :
    (calculateTrendDirection current previous = TrendDirection.stable ↔
      previous ≠ 0 ∧ |current - previous| / previous < 1/20) ∧
    (calculateTrendDirection current previous ≠ TrendDirection.stable →
      (calculateTrendDirection current previous = TrendDirection.up ↔ previous < current)) ∧
    calculateTrendDirection 90 80 = TrendDirection.up ∧
    calculateTrendDirection 82 80 = TrendDirection.stable ∧
    calculateTrendDirection 0 0 = TrendDirection.down := by
  refine ⟨?_, ?_, by decide, by decide, by decide⟩
  · unfold calculateTrendDirection
    split_ifs with h h2
    · exact iff_of_true rfl h
    · exact iff_of_false (by decide) h
    · exact iff_of_false (by decide) h
  · unfold calculateTrendDirection
    split_ifs with h h2
    · intro hne; exact absurd rfl hne
    · intro _; exact iff_of_true rfl h2
    · intro _; exact iff_of_false (by decide) h2

/-- C1 witness: the amended characterization evaluated at the concrete
input `current = 0, previous = 0`. -/
theorem trendDirection_cases_w :
    (calculateTrendDirection 0 0 = TrendDirection.stable ↔
      (0:ℚ) ≠ 0 ∧ |(0:ℚ) - 0| / 0 < 1/20) ∧
    (calculateTrendDirection 0 0 ≠ TrendDirection.stable →
      (calculateTrendDirection 0 0 = TrendDirection.up ↔ (0:ℚ) < 0)) ∧
    calculateTrendDirection 90 80 = TrendDirection.up ∧
    calculateTrendDirection 82 80 = TrendDirection.stable ∧
    calculateTrendDirection 0 0 = TrendDirection.down :=
  trendDirection_cases 0 0

unseal Rat.mul Rat.inv Rat.add Rat.sub in
/-- C3: `calculateReliabilityScore` is
`round(ARRIVED / (ARRIVED + LOST + DAMAGED + UNDELIVERABLE + RETURN_TO_SENDER) * 100)`,
is `0` on a zero denominator, always lies in `[0, 100]`, and maps
`{ARRIVED := 90, LOST := 5, DAMAGED := 5}` to `90`. -/
theorem reliabilityScore_spec :
    (∀ sc : StatusCounts, calculateReliabilityScore sc =
      if completedTotal sc = 0 then 0
      else jsRound ((sc.ARRIVED : ℚ) / (completedTotal sc : ℚ) * 100)) ∧
    (∀ sc : StatusCounts,
      0 ≤ calculateReliabilityScore sc ∧ calculateReliabilityScore sc ≤ 100) ∧
    calculateReliabilityScore
      { StatusCounts.zero with ARRIVED := 90, LOST := 5, DAMAGED := 5 } = 90 := by
  refine ⟨fun sc => rfl, fun sc => ?_, by decide⟩
  unfold calculateReliabilityScore jsRound
  split_ifs with h
  · exact ⟨le_refl 0, by norm_num⟩
  · have hT : 0 < (completedTotal sc : ℚ) := by
      exact_mod_cast Nat.pos_of_ne_zero h
    have hA : (sc.ARRIVED : ℚ) ≤ (completedTotal sc : ℚ) := by
      have hle : sc.ARRIVED ≤ completedTotal sc := by
        unfold completedTotal; omega
      exact_mod_cast hle
    have hx0 : 0 ≤ (sc.ARRIVED : ℚ) / (completedTotal sc : ℚ) * 100 := by positivity
    have hx1 : (sc.ARRIVED : ℚ) / (completedTotal sc : ℚ) * 100 ≤ 100 := by
      have h1 : (sc.ARRIVED : ℚ) / (completedTotal sc : ℚ) ≤ 1 := by
        rw [div_le_one hT]; exact hA
      nlinarith
    constructor
    · exact Int.le_floor.mpr (by push_cast; linarith)
    · have hlt : ⌊(sc.ARRIVED : ℚ) / (completedTotal sc : ℚ) * 100 + 1/2⌋ < 101 :=
        Int.floor_lt.mpr (by push_cast; linarith)
      omega

/-- `vendorReliabilities` over an empty order window is empty: every
catalog vendor's filtered order list is empty. -/
theorem vendorReliabilities_nil (vendors : List Vendor) :
    vendorReliabilities vendors [] = [] := by
  induction vendors with
  | nil => rfl
  | cons v vs ih =>
      simp [vendorReliabilities, List.filterMap_cons]

/-- C10: `calculatePercentageChange` is total at the zero boundary —
`previous = 0` yields `100` for positive `current` and `0` otherwise,
never dividing by zero — and consequently the dashboard `reliabilityTrend`
over an empty previous window is the well-defined number `100` or `0`. -/
theorem percentageChange_zero_prev :
    (∀ current : ℚ,
      calculatePercentageChange current 0 = if 0 < current then 100 else 0) ∧
    (∀ (vendors : List Vendor) (curOrders : List Order),
      dashboardReliabilityTrend vendors curOrders [] =
        if 0 < overallReliability vendors curOrders then 100 else 0) := by
  constructor
  · intro current
    simp [calculatePercentageChange]
  · intro vendors curOrders
    unfold dashboardReliabilityTrend
    have hprev : overallReliability vendors [] = 0 := by
      simp [overallReliability, vendorReliabilities_nil]
    rw [hprev]
    unfold calculatePercentageChange
    rw [if_pos rfl]
    split_ifs with h
    · norm_num [jsRound]
    · norm_num [jsRound]

set_option maxRecDepth 40000 in
unseal Rat.mul Rat.inv Rat.add Rat.sub in
/-- C2: `generateVendorReport` passes the window's **total order count**
(`current7dOrders.length`), not the ARRIVED count, as the denominator of
`calculateOnTimePercentage`.  On a window of 100 orders with 90 arrived
and 80 on time the report stores `round(80/100*100) = 80`, while the
claimed (and schema-documented, `onTimeDeliveries / totalDelivered * 100`)
value is `round(80/90*100) = 89`. -/
theorem onTimePercentage_denominator_bug :
    calculateOnTimeDeliveries c2Window = 80 ∧
    (calculateStatusCounts c2Window).ARRIVED = 90 ∧
    c2Window.length = 100 ∧
    vendorOnTimePercentage c2Window = 80 ∧
    calculateOnTimePercentage (calculateOnTimeDeliveries c2Window)
      ((calculateStatusCounts c2Window).ARRIVED) = 89 ∧
    vendorOnTimePercentage c2Window ≠
      calculateOnTimePercentage (calculateOnTimeDeliveries c2Window)
        ((calculateStatusCounts c2Window).ARRIVED) := by
  decide

set_option maxRecDepth 40000 in
unseal Rat.mul Rat.inv Rat.add Rat.sub in
/-- C4 (counterexample): on the issue path with an issue-time draw of `0`,
the synthesized order has `isDelayed = true` while its occurrence time
**equals** the estimated delivery — it is not strictly later. -/
theorem isDelayed_boundary_cx :
    (createBackfilledOrder 0 vendorPremiumFlowers issueBoundaryOrderDraws).isDelayed = true ∧
    (createBackfilledOrder 0 vendorPremiumFlowers issueBoundaryOrderDraws).actualDelivery =
      (createBackfilledOrder 0 vendorPremiumFlowers issueBoundaryOrderDraws).estimatedDelivery ∧
    (createBackfilledOrder 0 vendorPremiumFlowers issueBoundaryOrderDraws).estimatedDelivery =
      some 108000000 := by
  decide

/-- Both directions of the delayed-flag invariant that do hold for
`generateOrderProgression`: strict lateness forces the flag, and the flag
forces the occurrence time to be at least the estimate. -/
theorem progression_isDelayed_bounds (vendor : Vendor) (createdAt : ℚ) (isRush : Bool)
    (d : ProgressionDraws) (ht : 0 ≤ d.issueTimeDraw) (a : ℚ)
    (ha : (generateOrderProgression vendor createdAt isRush d).actualDelivery = some a) :
    ((generateOrderProgression vendor createdAt isRush d).estimatedDelivery < a →
      (generateOrderProgression vendor createdAt isRush d).isDelayed = true) ∧
    ((generateOrderProgression vendor createdAt isRush d).isDelayed = true →
      (generateOrderProgression vendor createdAt isRush d).estimatedDelivery ≤ a) := by
  by_cases h : d.statusDraw < reliabilityOrDefault vendor.baseReliability * (9/10)
  · simp only [generateOrderProgression, if_pos h] at ha ⊢
    rw [Option.some_inj] at ha
    subst ha
    constructor
    · intro hlt; exact decide_eq_true hlt
    · intro hd; exact le_of_lt (of_decide_eq_true hd)
  · simp only [generateOrderProgression, if_neg h] at ha ⊢
    rw [Option.some_inj] at ha
    subst ha
    refine ⟨fun _ => by simp, fun _ => ?_⟩
    have hms : (0:ℚ) < msPerDay := by norm_num [msPerDay]
    have hnn : 0 ≤ d.issueTimeDraw * 3 * msPerDay := by positivity
    nlinarith [hnn]

/-- C4 (amended): for every backfilled order (over all draw values with a
nonnegative issue-time draw), strict lateness of the actual
delivery/occurrence time past the estimate implies `isDelayed = true`, and
`isDelayed = true` implies the actual time is **at least** the estimate
(the flag can be true with the occurrence time exactly equal to the
estimate, so the strict "if and only if" fails only at that boundary); in
particular `estimatedDelivery < updatedAt` implies `isDelayed = true`. -/
theorem backfilledOrder_isDelayed (baseDate : ℚ) (vendor : Vendor) (d : OrderDraws)
    (ht : 0 ≤ d.prog.issueTimeDraw) (e a : ℚ)
    (he : (createBackfilledOrder baseDate vendor d).estimatedDelivery = some e)
    (ha : (createBackfilledOrder baseDate vendor d).actualDelivery = some a) :
    (e < a → (createBackfilledOrder baseDate vendor d).isDelayed = true) ∧
    ((createBackfilledOrder baseDate vendor d).isDelayed = true → e ≤ a) ∧
    (e < (createBackfilledOrder baseDate vendor d).updatedAt →
      (createBackfilledOrder baseDate vendor d).isDelayed = true) := by
  simp only [createBackfilledOrder] at he ha ⊢
  rw [Option.some_inj] at he
  subst he
  have key := progression_isDelayed_bounds vendor _ _ d.prog ht a ha
  rw [ha]
  exact ⟨key.1, key.2, by simpa [Option.getD] using key.1⟩

set_option maxRecDepth 40000 in
unseal Rat.mul Rat.inv Rat.add Rat.sub in
/-- C4 witness: the amended invariant evaluated on a concrete arrived-late
order (estimate 194400000 ms, actual 280800000 ms). -/
theorem backfilledOrder_isDelayed_w :
    (0:ℚ) ≤ arrivedLateDraws.prog.issueTimeDraw ∧
    (createBackfilledOrder 0 vendorPremiumFlowers arrivedLateDraws).estimatedDelivery =
      some 194400000 ∧
    (createBackfilledOrder 0 vendorPremiumFlowers arrivedLateDraws).actualDelivery =
      some 280800000 ∧
    (((194400000:ℚ) < 280800000 →
        (createBackfilledOrder 0 vendorPremiumFlowers arrivedLateDraws).isDelayed = true) ∧
      ((createBackfilledOrder 0 vendorPremiumFlowers arrivedLateDraws).isDelayed = true →
        (194400000:ℚ) ≤ 280800000) ∧
      ((194400000:ℚ) <
          (createBackfilledOrder 0 vendorPremiumFlowers arrivedLateDraws).updatedAt →
        (createBackfilledOrder 0 vendorPremiumFlowers arrivedLateDraws).isDelayed = true)) :=
  ⟨by decide, by decide, by decide,
    backfilledOrder_isDelayed 0 vendorPremiumFlowers arrivedLateDraws (by decide)
      194400000 280800000 (by decide) (by decide)⟩

set_option maxRecDepth 40000 in
unseal Rat.mul Rat.inv Rat.add Rat.sub in
/-- C5 (counterexample): two catalog vendors given the **same** random
draw vector produce different gift categories — the category is not drawn
from the configured distribution independently of the vendor; the
distribution function `selectGiftType` (which maps the draw `0.5` to
`tech`) is not what `createBackfilledOrder` uses. -/
theorem giftType_from_vendor_cx :
    vendorPremiumFlowers ∈ ACTIVE_VENDORS ∧
    vendorTechGadgets ∈ ACTIVE_VENDORS ∧
    (createBackfilledOrder 0 vendorPremiumFlowers sharedDraws).giftType = GiftType.flowers ∧
    (createBackfilledOrder 0 vendorTechGadgets sharedDraws).giftType = GiftType.tech ∧
    (createBackfilledOrder 0 vendorPremiumFlowers sharedDraws).giftType ≠
      (createBackfilledOrder 0 vendorTechGadgets sharedDraws).giftType ∧
    selectGiftType (1/2) = GiftType.tech ∧
    (createBackfilledOrder 0 vendorPremiumFlowers sharedDraws).giftType ≠
      selectGiftType (1/2) := by
  decide

/-- C5 (amended): the gift category of every backfilled order equals the
selected vendor's catalog category, for all values of the random draws —
`createBackfilledOrder` sets `giftType = vendor.category!` and never calls
`selectGiftType`. -/
theorem giftType_eq_vendor_category (baseDate : ℚ) (vendor : Vendor) (d : OrderDraws) :
    (createBackfilledOrder baseDate vendor d).giftType = vendor.category := rfl

/-- C6: every terminal status has an empty successor set in the
allowed-transition table (`canTransitionTo` is false to every target), and
the spec-modelled `advance` step leaves a terminal status unchanged for
every draw and parameter value. -/
theorem terminal_no_outgoing (s : OrderStatus) (hs : isTerminalStatus s = true) :
    (∀ t, canTransitionTo s t = false) ∧
    (∀ (overdue : Bool) (reliability : ℚ) (commonIssues : List OrderStatus)
        (pComplete pLost pLateComplete pIssue : ℚ) (d : AdvanceDraws),
      advance s overdue reliability commonIssues pComplete pLost pLateComplete pIssue d = s) := by
  cases s with
  | PLACED => exact absurd hs (by decide)
  | SHIPPING_ON_TIME => exact absurd hs (by decide)
  | SHIPPING_DELAYED => exact absurd hs (by decide)
  | ARRIVED => exact ⟨by decide, fun _ _ _ _ _ _ _ _ => rfl⟩
  | LOST => exact ⟨by decide, fun _ _ _ _ _ _ _ _ => rfl⟩
  | DAMAGED => exact ⟨by decide, fun _ _ _ _ _ _ _ _ => rfl⟩
  | UNDELIVERABLE => exact ⟨by decide, fun _ _ _ _ _ _ _ _ => rfl⟩
  | RETURN_TO_SENDER => exact ⟨by decide, fun _ _ _ _ _ _ _ _ => rfl⟩

/-- C7: for every random draw in `[0, 1)`, the daily order count lies in
`[30, 120]` on a weekend day (`dayOfWeek` 0 or 6, so Saturday and Sunday)
and in `[75, 300]` on any weekday (so in particular Tuesday), given the
configured range `[50, 200]` and multipliers `0.6` / `1.5`. -/
theorem dailyOrderCount_bounds (dayOfWeek : ℕ) (r : ℚ) (h0 : 0 ≤ r) (h1 : r < 1) :
    ((dayOfWeek = 0 ∨ dayOfWeek = 6) →
      30 ≤ calculateDailyOrderCount dayOfWeek r ∧
        calculateDailyOrderCount dayOfWeek r ≤ 120) ∧
    (¬(dayOfWeek = 0 ∨ dayOfWeek = 6) →
      75 ≤ calculateDailyOrderCount dayOfWeek r ∧
        calculateDailyOrderCount dayOfWeek r ≤ 300) := by
  have hbase_lo : (50:ℤ) ≤ ⌊r * (200 - 50 + 1) + 50⌋ := by
    apply Int.le_floor.mpr
    push_cast
    nlinarith
  have hbase_hi : ⌊r * (200 - 50 + 1) + 50⌋ ≤ 200 := by
    have hlt : ⌊r * (200 - 50 + 1) + 50⌋ < 201 := by
      apply Int.floor_lt.mpr
      push_cast
      nlinarith
    omega
  have hQlo : (50:ℚ) ≤ (⌊r * (200 - 50 + 1) + 50⌋ : ℚ) := by exact_mod_cast hbase_lo
  have hQhi : (⌊r * (200 - 50 + 1) + 50⌋ : ℚ) ≤ 200 := by exact_mod_cast hbase_hi
  constructor
  · intro hw
    have hb : (dayOfWeek == 0 || dayOfWeek == 6) = true := by
      rcases hw with h | h <;> simp [h]
    simp only [calculateDailyOrderCount, hb, if_pos]
    set b := ⌊r * (200 - 50 + 1) + 50⌋ with hbdef
    constructor
    · apply Int.le_floor.mpr
      push_cast
      linarith
    · have hlt : ⌊(b : ℚ) * (6/10)⌋ < 121 := by
        apply Int.floor_lt.mpr
        push_cast
        linarith
      omega
  · intro hw
    have hb : (dayOfWeek == 0 || dayOfWeek == 6) = false := by
      simp only [Bool.or_eq_false_iff, beq_eq_false_iff_ne]
      exact ⟨fun h => hw (Or.inl h), fun h => hw (Or.inr h)⟩
    simp only [calculateDailyOrderCount, hb, if_neg, Bool.false_eq_true, if_false]
    set b := ⌊r * (200 - 50 + 1) + 50⌋ with hbdef
    constructor
    · apply Int.le_floor.mpr
      push_cast
      linarith
    · have hlt : ⌊(b : ℚ) * (15/10)⌋ < 301 := by
        apply Int.floor_lt.mpr
        push_cast
        linarith
      omega

unseal Rat.mul Rat.inv Rat.add Rat.sub in
/-- C7 witness: the daily-count bounds evaluated at Saturday
(`dayOfWeek = 6`) with draw `1/2`. -/
theorem dailyOrderCount_bounds_w :
    (0:ℚ) ≤ 1/2 ∧ (1/2:ℚ) < 1 ∧
    ((((6:ℕ) = 0 ∨ (6:ℕ) = 6) →
        30 ≤ calculateDailyOrderCount 6 (1/2) ∧
          calculateDailyOrderCount 6 (1/2) ≤ 120) ∧
      (¬((6:ℕ) = 0 ∨ (6:ℕ) = 6) →
        75 ≤ calculateDailyOrderCount 6 (1/2) ∧
          calculateDailyOrderCount 6 (1/2) ≤ 300)) :=
  ⟨by norm_num, by norm_num,
    dailyOrderCount_bounds 6 (1/2) (by norm_num) (by norm_num)⟩

set_option maxRecDepth 40000 in
unseal Rat.mul Rat.inv Rat.add Rat.sub in
/-- C8: in the weighted selection table built over the catalog, every
catalog vendor occupies exactly `ceil(reliability * 10)` entries, the
table's length is the sum of those weights, and therefore the fraction of
table indices selecting a vendor — the selection probability under a
uniform random index — is its weight over the total weight. -/
theorem weightedVendor_counts :
    ∀ v ∈ ACTIVE_VENDORS,
      (weightedVendors ACTIVE_VENDORS).count v = vendorWeight v ∧
      (weightedVendors ACTIVE_VENDORS).length = (ACTIVE_VENDORS.map vendorWeight).sum ∧
      ((weightedVendors ACTIVE_VENDORS).count v : ℚ) /
          ((weightedVendors ACTIVE_VENDORS).length : ℚ) =
        (vendorWeight v : ℚ) / ((ACTIVE_VENDORS.map vendorWeight).sum : ℚ) := by
  decide

set_option maxRecDepth 40000 in
unseal Rat.mul Rat.inv Rat.add Rat.sub in
/-- C8 witness: the count and probability facts evaluated at the first
catalog vendor (weight `ceil(0.95 * 10) = 10` of total `46`). -/
theorem weightedVendor_counts_w :
    vendorPremiumFlowers ∈ ACTIVE_VENDORS ∧
    ((weightedVendors ACTIVE_VENDORS).count vendorPremiumFlowers =
        vendorWeight vendorPremiumFlowers ∧
      (weightedVendors ACTIVE_VENDORS).length = (ACTIVE_VENDORS.map vendorWeight).sum ∧
      ((weightedVendors ACTIVE_VENDORS).count vendorPremiumFlowers : ℚ) /
          ((weightedVendors ACTIVE_VENDORS).length : ℚ) =
        (vendorWeight vendorPremiumFlowers : ℚ) /
          ((ACTIVE_VENDORS.map vendorWeight).sum : ℚ)) :=
  ⟨by decide, weightedVendor_counts vendorPremiumFlowers (by decide)⟩

set_option maxRecDepth 100000 in
unseal Rat.mul Rat.inv Rat.add Rat.sub in
/-- C9 (counterexample): with three vendors scoring 90, 90 and 85, the
unweighted mean is `265/3 = 88.333…`, but the `DashboardSummary` field
stores `Math.round(mean * 100) / 100 = 88.33`, which differs from the
mean. -/
theorem dashboard_overall_rounding_cx :
    overallReliability ACTIVE_VENDORS c9Orders = 265/3 ∧
    storedOverallReliability ACTIVE_VENDORS c9Orders = 8833/100 ∧
    storedOverallReliability ACTIVE_VENDORS c9Orders ≠
      overallReliability ACTIVE_VENDORS c9Orders := by
  decide

/-- `filterMap` with an if-some-else-none body is `filter` then `map`. -/
theorem filterMap_if_eq_map_filter {α β : Type} (p : α → Prop) [DecidablePred p]
    (g : α → β) (l : List α) :
    l.filterMap (fun a => if p a then some (g a) else none) =
      (l.filter (fun a => decide (p a))).map g := by
  induction l with
  | nil => rfl
  | cons x xs ih =>
      by_cases h : p x
      · simp [List.filterMap_cons, List.filter_cons, h, ih]
      · simp [List.filterMap_cons, List.filter_cons, h, ih]

/-- The dashboard's reliability list is the per-vendor score over exactly
the qualifying vendors (those with at least one order in the window). -/
theorem vendorReliabilities_eq_map (vendors : List Vendor) (orders : List Order) :
    vendorReliabilities vendors orders =
      (qualifyingVendors vendors orders).map (fun v =>
        calculateReliabilityScore
          (calculateStatusCounts (orders.filter (fun o => o.vendorId == v.vendorId)))) := by
  unfold vendorReliabilities qualifyingVendors
  exact filterMap_if_eq_map_filter
    (fun v => 0 < (orders.filter (fun o => o.vendorId == v.vendorId)).length)
    (fun v => calculateReliabilityScore
      (calculateStatusCounts (orders.filter (fun o => o.vendorId == v.vendorId))))
    vendors

/-- C9 (amended): the dashboard overall reliability is the unweighted
arithmetic mean of per-vendor reliability scores over exactly the catalog
vendors with at least one order in the window (each contributing equally
regardless of volume), the **stored** `DashboardSummary` field being that
mean rounded to two decimals (`Math.round(mean * 100) / 100`), and `0`
when no vendor has any order in the window. -/
theorem dashboardOverall_is_unweighted_mean (vendors : List Vendor) (orders : List Order) :
    overallReliability vendors orders = specOverallReliability vendors orders ∧
    storedOverallReliability vendors orders =
      (jsRound (specOverallReliability vendors orders * 100) : ℚ) / 100 ∧
    (qualifyingVendors vendors orders = [] →
      storedOverallReliability vendors orders = 0) := by
  have hmain : overallReliability vendors orders = specOverallReliability vendors orders := by
    unfold overallReliability specOverallReliability
    rw [vendorReliabilities_eq_map]
    by_cases hq : qualifyingVendors vendors orders = []
    · simp [hq]
    · have hlen : 0 < ((qualifyingVendors vendors orders).map (fun v =>
          calculateReliabilityScore
            (calculateStatusCounts (orders.filter (fun o => o.vendorId == v.vendorId))))).length := by
        simpa [List.length_pos] using hq
      rw [if_pos hlen, if_neg hq]
      simp
  refine ⟨hmain, ?_, ?_⟩
  · unfold storedOverallReliability
    rw [hmain]
  · intro hq
    unfold storedOverallReliability
    rw [hmain]
    unfold specOverallReliability
    rw [if_pos hq]
    norm_num [jsRound]

/-- C9 witness: the amended statement evaluated at the empty catalog and
empty window. -/
theorem dashboardOverall_is_unweighted_mean_w :
    overallReliability [] [] = specOverallReliability [] [] ∧
    storedOverallReliability [] [] =
      (jsRound (specOverallReliability [] [] * 100) : ℚ) / 100 ∧
    (qualifyingVendors [] [] = [] → storedOverallReliability [] [] = 0) :=
  dashboardOverall_is_unweighted_mean [] []

/-- C6 witness: the terminal-status theorem evaluated at `ARRIVED`. -/
theorem terminal_no_outgoing_w :
    isTerminalStatus OrderStatus.ARRIVED = true ∧
    ((∀ t, canTransitionTo OrderStatus.ARRIVED t = false) ∧
      (∀ (overdue : Bool) (reliability : ℚ) (commonIssues : List OrderStatus)
          (pComplete pLost pLateComplete pIssue : ℚ) (d : AdvanceDraws),
        advance OrderStatus.ARRIVED overdue reliability commonIssues
          pComplete pLost pLateComplete pIssue d = OrderStatus.ARRIVED)) :=
  ⟨by decide, terminal_no_outgoing OrderStatus.ARRIVED (by decide)⟩

end Goody
